import Mathlib

/-!
Verification of the FMCSA provider-tracking scripts
(`fmcsa_in_review_scraper.py`, `fmcsa_removed_scraper.py`, `dashboard.py`).

The scripts fetch two paginated datasets, save a dated snapshot CSV, merge the
snapshot into a per-dataset master CSV deduplicated by an identity key
(`USDOTNumber` for the in-review dataset, `ProviderNumber` for the removed
dataset), and the dashboard joins the two master stores to derive a transfer
month for providers that moved from in-review to removed.

The embedding below models rows as ordered association lists of string fields
(Python `dict` rows from the JSON API / `csv.DictReader`), the network as an
oracle from request parameters and attempt number to an outcome, and file
writes as explicit optional artifact values.
-/

/-- A record: a Python dict mapping field names to string values, kept in
insertion order.  Both the JSON API rows and `csv.DictReader` rows are modelled
this way. -/
abbrev Row := List (String × String)

/-- Python `row.get(k)`: the value of the first binding of `k`, or `None`
(`Option.none`) when the field is absent. -/
def rowGet (r : Row) (k : String) : Option String :=
  (r.find? (fun p => p.1 == k)).map (fun p => p.2)

/-- Python truthiness of `row.get(k)`: the field is present and its value is a
non-empty string.  This is the test both scrapers use to decide whether a row
carries a usable identity key. -/
def truthyKey (key : String) (r : Row) : Bool :=
  match rowGet r key with
  | some v => v != ""
  | none => false

/-- The set `existing_ids` built before the merge loop
(`fmcsa_in_review_scraper.py` lines 153-157, `fmcsa_removed_scraper.py`
lines 137-141): all truthy identity values of the loaded master rows.
Modelled as a list; only membership is ever consulted. -/
def existingIds (key : String) (master : List Row) : List String :=
  master.filterMap (fun r =>
    match rowGet r key with
    | some v => if v != "" then some v else none
    | none => none)

/-- The per-row admission test of both merge loops: the row's identity value is
present, non-empty, and not among `existing_ids`.  Note that `existing_ids`
is fixed before the loop and never extended inside it, in both scripts. -/
def isNewRow (key : String) (ids : List String) (r : Row) : Bool :=
  match rowGet r key with
  | some v => v != "" && !(ids.contains v)
  | none => false

/-- The `new_rows` list comprehension of `fmcsa_in_review_scraper.py`
lines 159-162: snapshot rows passing `isNewRow` against the loaded master. -/
def newRows (key : String) (master snapshot : List Row) : List Row :=
  snapshot.filter (isNewRow key (existingIds key master))

/-- The in-review master update (`fmcsa_in_review_scraper.py` lines 159-166):
`master_rows.extend(new_rows)`.  When `new_rows` is empty the extend is not
executed, which leaves the same list value, so the unconditional append is the
faithful value-level model. -/
def inReviewUpdate (master snapshot : List Row) : List Row :=
  master ++ newRows "USDOTNumber" master snapshot

/-- The removed-scraper merge loop (`fmcsa_removed_scraper.py` lines 143-148):
a left fold over the snapshot appending admissible rows to `master_rows` and
counting them in `new_count`.  `existing_ids` is materialised from the
original master before the loop and is not updated inside it. -/
def removedFold (master snapshot : List Row) : List Row × Nat :=
  snapshot.foldl
    (fun acc row =>
      if isNewRow "ProviderNumber" (existingIds "ProviderNumber" master) row then
        (acc.1 ++ [row], acc.2 + 1)
      else acc)
    (master, 0)

/-- The removed master rows after the merge loop. -/
def removedUpdate (master snapshot : List Row) : List Row :=
  (removedFold master snapshot).1

/-- Code-point comparison of character lists, the order Python's `sorted` uses
on strings.  Needed because the scripts sort the CSV header fields. -/
def chListLe : List Char → List Char → Bool
  | [], _ => true
  | _ :: _, [] => false
  | a :: as, b :: bs =>
    if a.val < b.val then true
    else if b.val < a.val then false
    else chListLe as bs

/-- String order by code points (Python string comparison). -/
def strLeB (a b : String) : Bool := chListLe a.data b.data

/-- Insert into a sorted list of strings. -/
def insertSorted (s : String) : List String → List String
  | [] => [s]
  | t :: ts => if strLeB s t then s :: t :: ts else t :: insertSorted s ts

/-- Sort a list of strings by code points. -/
def sortStrings : List String → List String
  | [] => []
  | s :: ss => insertSorted s (sortStrings ss)

/-- `fieldnames = sorted({k for row in rows for k in row.keys()})`
(`fmcsa_in_review_scraper.py` line 111, `fmcsa_removed_scraper.py`
lines 91-95): the sorted set of all field names across the rows. -/
def fieldnames (rows : List Row) : List String :=
  sortStrings ((rows.flatMap (fun r => r.map Prod.fst)).dedup)

/-- A written CSV artifact: header field names and the rows. -/
abbrev CsvFile := List String × List Row

/-- The CSV content written for a list of rows. -/
def csvOf (rows : List Row) : CsvFile := (fieldnames rows, rows)

/-- Outcome of one save call: the artifact written, if any, and whether the
warning message was printed. -/
structure SaveResult where
  file : Option CsvFile
  warned : Bool
deriving DecidableEq, Repr

/-- `save_csv` of `fmcsa_in_review_scraper.py` (lines 105-118): on an empty
row list it prints a warning and returns without touching the file; otherwise
it writes header and rows. -/
def save_csv (rows : List Row) : SaveResult :=
  if rows.isEmpty then { file := none, warned := true }
  else { file := some (csvOf rows), warned := false }

/-- `save_to_csv` of `fmcsa_removed_scraper.py` (lines 89-102): no empty-input
check — it always opens the file for writing and emits the (possibly empty)
header and rows, and prints no warning. -/
def save_to_csv (rows : List Row) : SaveResult :=
  { file := some (csvOf rows), warned := false }

/-- One page response envelope: `{recordsTotal: N, data: [...]}`. -/
structure PageResponse where
  recordsTotal : Nat
  data : List Row
deriving DecidableEq, Repr

/-- Outcome of one HTTP POST attempt inside `fetch_page`:
a 500 status (explicitly retried), another error status on which
`raise_for_status` raises `HTTPError` (a `RequestException`), a transport
failure raising a `RequestException` directly, or a successful JSON body. -/
inductive Attempt where
  | status500 : Attempt
  | httpError (code : Nat) : Attempt
  | transportError : Attempt
  | success (page : PageResponse) : Attempt
deriving DecidableEq, Repr

/-- Whether an attempt outcome is the success case. -/
def Attempt.isSuccess : Attempt → Bool
  | .success _ => true
  | _ => false

/-- `MAX_RETRIES` (`fmcsa_in_review_scraper.py` line 26; the removed scraper
uses the same default `retries=5`). -/
def MAX_RETRIES : Nat := 5

/-- The retry loop body of `fetch_page` (`fmcsa_in_review_scraper.py`
lines 81-102, `fmcsa_removed_scraper.py` lines 65-86).  `resp attempt` is the
outcome of the POST on that attempt.  A 500 response hits the explicit
`continue`; any `RequestException` — including the `HTTPError` that
`raise_for_status` raises on 4xx — is caught by the `except` clause and also
falls through to the next attempt.  Only a success returns.  When the loop
exhausts its attempts the function raises the fatal error
(`RuntimeError`, the spec's `FetchExhausted`).  The result carries the
attempt number on which the page was obtained. -/
def fetchPageAux (resp : Nat → Attempt) : Nat → Nat → Except String (PageResponse × Nat)
  | _, 0 => .error "FetchExhausted"
  | attempt, rem + 1 =>
    match resp attempt with
    | .success pg => .ok (pg, attempt)
    | _ => fetchPageAux resp (attempt + 1) rem

/-- `fetch_page` with its full retry budget, attempts numbered from 1. -/
def fetchPage (resp : Nat → Attempt) : Except String (PageResponse × Nat) :=
  fetchPageAux resp 1 MAX_RETRIES

/-- `PAGE_SIZE` (line 25 of the in-review scraper, `page_size` line 114 of the
removed scraper). -/
def PAGE_SIZE : Nat := 100

/-- `math.ceil(total_records / PAGE_SIZE)` on natural numbers. -/
def totalPagesFor (n : Nat) : Nat := (n + PAGE_SIZE - 1) / PAGE_SIZE

/-- The page loop of both `main`s: fetch pages at offsets `page * PAGE_SIZE`
with length `PAGE_SIZE`, extending the row accumulator in order.  The oracle
takes the request's start offset, length, and attempt number. -/
def collectPages (resp : Nat → Nat → Nat → Attempt) : List Nat → Except String (List Row)
  | [] => .ok []
  | p :: ps =>
    match fetchPage (resp (p * PAGE_SIZE) PAGE_SIZE) with
    | .error e => .error e
    | .ok pr =>
      match collectPages resp ps with
      | .error e => .error e
      | .ok rest => .ok (pr.1.data ++ rest)

/-- Observable outcome of one successful run of a scraper `main`: the snapshot
artifact written (if any), the master artifact written (if any), the number of
rows added to the master, the addition count printed (if printed), and the
number of warning messages printed. -/
structure RunOutcome where
  snapshotFile : Option CsvFile
  masterFile : Option CsvFile
  added : Nat
  reported : Option Nat
  warnings : Nat
deriving DecidableEq, Repr

/-- `main` of `fmcsa_in_review_scraper.py` (lines 124-169): first page fetched
with `start=0, length=10`; `total_pages` from `recordsTotal`; pages
`1 .. total_pages-1` fetched at offsets `page*PAGE_SIZE`; snapshot saved with
`save_csv`; master rows loaded from the master artifact when it exists;
`new_rows` computed against `existing_ids`; the master artifact rewritten and
the count printed only when `new_rows` is non-empty.  A fetch failure
propagates as the run's exception before any save executes. -/
def inReviewOutcome (allRows masterRows : List Row) : RunOutcome :=
  { snapshotFile := (save_csv allRows).file
    masterFile := if (newRows "USDOTNumber" masterRows allRows).isEmpty then none
      else (save_csv (masterRows ++ newRows "USDOTNumber" masterRows allRows)).file
    added := (newRows "USDOTNumber" masterRows allRows).length
    reported := if (newRows "USDOTNumber" masterRows allRows).isEmpty then none
      else some (newRows "USDOTNumber" masterRows allRows).length
    warnings := if (save_csv allRows).warned then 1 else 0 }

def mainInReview (resp : Nat → Nat → Nat → Attempt) (masterArtifact : Option (List Row)) :
    Except String RunOutcome :=
  match fetchPage (resp 0 10) with
  | .error e => .error e
  | .ok fp =>
    match collectPages resp (List.range' 1 (totalPagesFor fp.1.recordsTotal - 1)) with
    | .error e => .error e
    | .ok rest => .ok (inReviewOutcome (fp.1.data ++ rest) (masterArtifact.getD []))

/-- `main` of `fmcsa_removed_scraper.py` (lines 105-151): same fetch shape
(first page `length=10`, then offsets `i*page_size`), snapshot saved with
`save_to_csv`, merge loop appending and counting, and then — unconditionally —
`save_to_csv(master_rows, master_csv)` and the count printed, even when
`new_count` is zero. -/
def removedOutcome (allRows masterRows : List Row) : RunOutcome :=
  { snapshotFile := (save_to_csv allRows).file
    masterFile := (save_to_csv (removedFold masterRows allRows).1).file
    added := (removedFold masterRows allRows).2
    reported := some (removedFold masterRows allRows).2
    warnings := 0 }

def mainRemoved (resp : Nat → Nat → Nat → Attempt) (masterArtifact : Option (List Row)) :
    Except String RunOutcome :=
  match fetchPage (resp 0 10) with
  | .error e => .error e
  | .ok fp =>
    match collectPages resp (List.range' 1 (totalPagesFor fp.1.recordsTotal - 1)) with
    | .error e => .error e
    | .ok rest => .ok (removedOutcome (fp.1.data ++ rest) (masterArtifact.getD []))

/-- The artifacts a run writes: none when the run raised. -/
def artifactsWritten : Except String RunOutcome → List CsvFile
  | .error _ => []
  | .ok o => o.snapshotFile.toList ++ o.masterFile.toList

/-- Idealised remote page semantics for the pagination claims: a request for
`length` records at offset `start` returns that slice of the stable remote
dataset. -/
def pageData (data : List Row) (start length : Nat) : List Row :=
  (data.drop start).take length

/-- The rows `main` accumulates when every request succeeds on the first
attempt and the remote dataset is stable: the first request is issued with
`length=10` (both scrapers), the remaining requests at offsets
`PAGE_SIZE, 2*PAGE_SIZE, ...` with length `PAGE_SIZE`. -/
def fetchedRows (data : List Row) : List Row :=
  pageData data 0 10 ++
    (List.range' 1 (totalPagesFor data.length - 1)).flatMap
      (fun page => pageData data (page * PAGE_SIZE) PAGE_SIZE)

/-- Number of page requests `main` issues for a reported total: the initial
probe plus one per further page. -/
def numPageRequests (n : Nat) : Nat := 1 + (totalPagesFor n - 1)

/-- A row of the in-review master store as the dashboard join consumes it:
only the join key matters for the transfer computation. -/
structure InRow where
  providerNumber : String
deriving DecidableEq, Repr

/-- A row of the removed master store as the dashboard join consumes it: the
join key and the `UpdatedOn` timestamp field (filled with `""` when the CSV
lacks the column, `dashboard.py` lines 18-20). -/
structure RmRow where
  providerNumber : String
  updatedOn : String
deriving DecidableEq, Repr

/-- Split a character list on the dash separator. -/
def splitOnDash : List Char → List (List Char)
  | [] => [[]]
  | c :: cs =>
    let r := splitOnDash cs
    if c = '-' then [] :: r
    else
      match r with
      | [] => [[c]]
      | g :: gs => (c :: g) :: gs

/-- Parse a non-empty all-digit character group as a number. -/
def digitsToNat (cs : List Char) : Option Nat :=
  if cs ≠ [] ∧ cs.all Char.isDigit then
    some (cs.foldl (fun n c => 10 * n + (c.toNat - 48)) 0)
  else none

/-- Model of `pd.to_datetime(s, errors="coerce")` restricted to ISO
`YYYY-MM-DD` inputs: year, month and day as digit groups with months 1-12 and
days 1-31; anything else — including the empty string — coerces to `NaT`
(`Option.none`). -/
def parseISODate (s : String) : Option (Nat × Nat × Nat) :=
  match splitOnDash s.data with
  | [y, m, d] =>
    match digitsToNat y, digitsToNat m, digitsToNat d with
    | some yn, some mn, some dn =>
      if 1 ≤ mn ∧ mn ≤ 12 ∧ 1 ≤ dn ∧ dn ≤ 31 then some (yn, mn, dn) else none
    | _, _, _ => none
  | _ => none

/-- Two-digit month rendering. -/
def pad2 (n : Nat) : String := if n < 10 then "0" ++ toString n else toString n

/-- `pd.to_datetime(s, errors="coerce").to_period("M").astype(str)` on one
value (`dashboard.py` lines 32-34): a parseable date renders as `"YYYY-MM"`;
an unparseable or absent value is `NaT`, and converting a period `NaT` to
`str` yields the string `"NaT"`, not an empty string. -/
def transferMonthOf (s : String) : String :=
  match parseISODate s with
  | some (y, m, _) => toString y ++ "-" ++ pad2 m
  | none => "NaT"

/-- The `ProviderNumber`/`TransferMonth` pairs of `df_transfer`
(`dashboard.py` lines 25-36): the inner merge of the two stores on
`ProviderNumber`, with `TransferMonth` derived from the removed side's
`UpdatedOn` (suffix `_rm`).  The `df_transfer.empty` branch assigns an empty
column, which coincides with this model on empty merges. -/
def innerMergeTransfer (dfIn : List InRow) (dfRm : List RmRow) : List (String × String) :=
  dfIn.flatMap (fun i =>
    (dfRm.filter (fun r => r.providerNumber == i.providerNumber)).map
      (fun r => (r.providerNumber, transferMonthOf r.updatedOn)))

/-- The left merge of `df_rm` with `df_transfer[["ProviderNumber",
"TransferMonth"]]` (`dashboard.py` lines 39-43): a removed row with no
matching transfer entry keeps a missing (`NaN`, here `none`) transfer month;
one with matches is paired with each matching entry's month. -/
def leftMergeTransfer (dfRm : List RmRow) (tr : List (String × String)) :
    List (RmRow × Option String) :=
  dfRm.flatMap (fun r =>
    let ms := tr.filter (fun p => p.1 == r.providerNumber)
    if ms.isEmpty then [(r, none)] else ms.map (fun p => (r, some p.2)))

/-- The annotated removed store the dashboard builds: `df_rm` after the left
merge with the transfer months. -/
def annotatedRemoved (dfIn : List InRow) (dfRm : List RmRow) : List (RmRow × Option String) :=
  leftMergeTransfer dfRm (innerMergeTransfer dfIn dfRm)

/-- Stated from the spec's words, for comparison with the code: the
distinct-by-identity-key records of a snapshot, duplicates collapsing to the
first occurrence, records lacking the key dropped. -/
def specDedupByKeyAux (key : String) : List Row → List String → List Row
  | [], _ => []
  | r :: rest, seen =>
    match rowGet r key with
    | some v =>
      if v != "" && !(seen.contains v) then r :: specDedupByKeyAux key rest (v :: seen)
      else specDedupByKeyAux key rest seen
    | none => specDedupByKeyAux key rest seen

/-- Spec-side reference reconciliation into an empty master store. -/
def specDedupByKey (key : String) (rows : List Row) : List Row :=
  specDedupByKeyAux key rows []

/-- Oracle for the retry-bound witness: HTTP 500 on attempts 1-4, success
with one record on attempt 5. -/
def resp500s : Nat → Attempt :=
  fun k => if k = 5 then .success ⟨1, [[("USDOTNumber", "1")]]⟩ else .status500

/-- Oracle whose every request attempt fails at transport level. -/
def respNever : Nat → Nat → Nat → Attempt := fun _ _ _ => .transportError

/-- Oracle answering HTTP 404 on the first attempt, then success. -/
def resp404then200 : Nat → Attempt :=
  fun k => if k = 1 then .httpError 404 else .success ⟨0, []⟩

/-- Oracle answering HTTP 404 on every attempt. -/
def resp404always : Nat → Attempt := fun _ => .httpError 404

/-- A stable remote dataset: every request succeeds on its first attempt and
returns the requested slice of `data` together with the true total, the
premise of the pagination-completeness claim. -/
def stableOracle (data : List Row) : Nat → Nat → Nat → Attempt :=
  fun start len _ => .success ⟨data.length, pageData data start len⟩

/-- Rows of the snapshot artifact a run wrote, if any. -/
def snapshotRowCount : Except String RunOutcome → Nat
  | .ok o =>
    match o.snapshotFile with
    | some f => f.2.length
    | none => 0
  | .error _ => 0

/-- Added-count projection of a run. -/
def runAdded : Except String RunOutcome → Nat
  | .ok o => o.added
  | .error _ => 0

/-- Master-artifact projection of a run. -/
def runMasterFile : Except String RunOutcome → Option CsvFile
  | .ok o => o.masterFile
  | .error _ => none

/-- Outcome of the in-review run used in the write-policy witness. -/
def irOutcome0 : RunOutcome :=
  { snapshotFile := some (["ProviderNumber"], [[("ProviderNumber", "7")]])
    masterFile := none
    added := 0
    reported := none
    warnings := 0 }

/-- Outcome of the removed run used in the write-policy witness. -/
def rmOutcome0 : RunOutcome :=
  { snapshotFile := some (["ProviderNumber"], [[("ProviderNumber", "7")]])
    masterFile := some (["ProviderNumber"], [[("ProviderNumber", "7")]])
    added := 0
    reported := some 0
    warnings := 0 }

/-- Warning-count projection of a run. -/
def runWarnings : Except String RunOutcome → Nat
  | .ok o => o.warnings
  | .error _ => 0

/-- Whether a run completed without raising. -/
def runOk : Except String RunOutcome → Bool
  | .ok _ => true
  | .error _ => false

theorem foldl_append_filter (p : Row → Bool) (l : List Row) :
    ∀ (acc : List Row) (n : Nat),
      l.foldl (fun a row => if p row then (a.1 ++ [row], a.2 + 1) else a) (acc, n)
      = (acc ++ l.filter p, n + (l.filter p).length) := by
  induction l with
  | nil => intro acc n; simp
  | cons r rest ih =>
    intro acc n
    by_cases h : p r
    · simp only [List.foldl, h, if_pos, List.filter_cons, ih, List.append_assoc,
        List.singleton_append, List.length_cons]
      exact Prod.ext rfl (by omega)
    · simp only [List.foldl, if_neg h, List.filter_cons, h, Bool.false_eq_true,
        if_false, ih]

theorem removedFold_eq (master snapshot : List Row) :
    removedFold master snapshot =
      (master ++ newRows "ProviderNumber" master snapshot,
        (newRows "ProviderNumber" master snapshot).length) := by
  unfold removedFold newRows
  rw [foldl_append_filter]
  simp

theorem existingIds_append (key : String) (l1 l2 : List Row) :
    existingIds key (l1 ++ l2) = existingIds key l1 ++ existingIds key l2 := by
  unfold existingIds
  exact List.filterMap_append l1 l2 _

theorem mem_existingIds_of (key : String) (l : List Row) (r : Row) (v : String)
    (hr : r ∈ l) (hv : rowGet r key = some v) (hne : v ≠ "") :
    v ∈ existingIds key l := by
  unfold existingIds
  refine List.mem_filterMap.mpr ⟨r, hr, ?_⟩
  simp [hv, hne]

theorem isNewRow_eq_false_after (key : String) (M S : List Row) (r : Row) (hr : r ∈ S) :
    isNewRow key (existingIds key (M ++ newRows key M S)) r = false := by
  unfold isNewRow
  cases hg : rowGet r key with
  | none => rfl
  | some v =>
    by_cases hv : v = ""
    · simp [hv]
    · have hmem : v ∈ existingIds key (M ++ newRows key M S) := by
        rw [existingIds_append]
        by_cases hM : v ∈ existingIds key M
        · exact List.mem_append_left _ hM
        · refine List.mem_append_right _ ?_
          have hnew : isNewRow key (existingIds key M) r = true := by
            unfold isNewRow
            rw [hg]
            simp only [Bool.and_eq_true, bne_iff_ne, ne_eq, Bool.not_eq_true']
            exact ⟨hv, by simpa [List.elem_iff] using hM⟩
          exact mem_existingIds_of key _ r v
            (List.mem_filter.mpr ⟨hr, hnew⟩) hg hv
      have hcont : (existingIds key (M ++ newRows key M S)).contains v = true := by
        simpa [List.elem_iff] using hmem
      simp only [hcont, Bool.not_true, Bool.and_false]

theorem newRows_after (key : String) (M S : List Row) :
    newRows key (M ++ newRows key M S) S = [] := by
  unfold newRows
  rw [List.filter_eq_nil_iff]
  intro r hr
  have h := isNewRow_eq_false_after key M S r hr
  unfold newRows at h
  simp [h]

theorem removedUpdate_eq (M S : List Row) :
    removedUpdate M S = M ++ newRows "ProviderNumber" M S := by
  unfold removedUpdate
  rw [removedFold_eq]

theorem isNewRow_iff (key : String) (ids : List String) (r : Row) :
    isNewRow key ids r = true ↔
      ∃ v, rowGet r key = some v ∧ v ≠ "" ∧ v ∉ ids := by
  unfold isNewRow
  cases hg : rowGet r key with
  | none => simp
  | some v =>
    simp only [Bool.and_eq_true, bne_iff_ne, ne_eq, Bool.not_eq_true', Option.some.injEq]
    constructor
    · rintro ⟨h1, h2⟩
      exact ⟨v, rfl, h1, by simpa [List.elem_iff] using h2⟩
    · rintro ⟨w, rfl, h1, h2⟩
      refine ⟨h1, ?_⟩
      rw [← Bool.not_eq_true, List.elem_iff]
      exact h2

theorem mem_update_iff (key : String) (M S : List Row) (r : Row) :
    r ∈ M ++ newRows key M S ↔
      r ∈ M ∨ (r ∈ S ∧ ∃ v, rowGet r key = some v ∧ v ≠ "" ∧
        v ∉ existingIds key M) := by
  rw [List.mem_append]
  apply or_congr_right
  unfold newRows
  rw [List.mem_filter]
  exact and_congr_right fun _ => isNewRow_iff key (existingIds key M) r

theorem isNewRow_nil_master (key : String) (r : Row) :
    isNewRow key (existingIds key []) r = truthyKey key r := by
  unfold isNewRow truthyKey existingIds
  cases rowGet r key <;> simp

/-- C1 counterexample: a snapshot containing the same identity key twice,
reconciled into an empty master store by either scraper, keeps both
occurrences — `existing_ids` is never extended inside the merge loop — while
the claim's distinct-by-key collapse keeps only the first. -/
theorem reconcile_dedup_counterexample :
    inReviewUpdate [] [[("USDOTNumber", "7")], [("USDOTNumber", "7"), ("City", "X")]]
        = [[("USDOTNumber", "7")], [("USDOTNumber", "7"), ("City", "X")]]
    ∧ specDedupByKey "USDOTNumber"
        [[("USDOTNumber", "7")], [("USDOTNumber", "7"), ("City", "X")]]
        = [[("USDOTNumber", "7")]]
    ∧ inReviewUpdate [] [[("USDOTNumber", "7")], [("USDOTNumber", "7"), ("City", "X")]]
        ≠ specDedupByKey "USDOTNumber"
            [[("USDOTNumber", "7")], [("USDOTNumber", "7"), ("City", "X")]]
    ∧ removedUpdate [] [[("ProviderNumber", "7")], [("ProviderNumber", "7"), ("City", "X")]]
        = [[("ProviderNumber", "7")], [("ProviderNumber", "7"), ("City", "X")]]
    ∧ removedUpdate [] [[("ProviderNumber", "7")], [("ProviderNumber", "7"), ("City", "X")]]
        ≠ specDedupByKey "ProviderNumber"
            [[("ProviderNumber", "7")], [("ProviderNumber", "7"), ("City", "X")]] := by
  refine ⟨by decide, by decide, by decide, ?_, ?_⟩ <;> · rw [removedUpdate_eq]; decide

/-- C1 amended: reconciliation appends a snapshot record exactly when its
identity field is present, non-empty, and absent from the loaded master
store's key set; the key set is not extended during the pass, so duplicate
keys within one snapshot are each appended.  Reconciling into an empty master
store therefore yields exactly the snapshot records carrying a usable key,
duplicates included, for both scrapers. -/
theorem reconcile_appends_unseen_amended (M S : List Row) :
    (∀ r, r ∈ inReviewUpdate M S ↔
      r ∈ M ∨ (r ∈ S ∧ ∃ v, rowGet r "USDOTNumber" = some v ∧ v ≠ "" ∧
        v ∉ existingIds "USDOTNumber" M))
    ∧ (∀ r, r ∈ removedUpdate M S ↔
      r ∈ M ∨ (r ∈ S ∧ ∃ v, rowGet r "ProviderNumber" = some v ∧ v ≠ "" ∧
        v ∉ existingIds "ProviderNumber" M))
    ∧ inReviewUpdate [] S = S.filter (truthyKey "USDOTNumber")
    ∧ removedUpdate [] S = S.filter (truthyKey "ProviderNumber") := by
  refine ⟨fun r => mem_update_iff "USDOTNumber" M S r,
    fun r => by rw [removedUpdate_eq]; exact mem_update_iff "ProviderNumber" M S r,
    ?_, ?_⟩
  · unfold inReviewUpdate newRows
    rw [List.nil_append]
    exact List.filter_congr fun r _ => isNewRow_nil_master "USDOTNumber" r
  · rw [removedUpdate_eq]
    unfold newRows
    rw [List.nil_append]
    exact List.filter_congr fun r _ => isNewRow_nil_master "ProviderNumber" r

/-- C3: reconciliation is idempotent for both scrapers: merging a snapshot
into the master store that already resulted from merging that snapshot leaves
the store unchanged and adds (and counts) zero new records. -/
theorem reconcile_idempotent (M S : List Row) :
    inReviewUpdate (inReviewUpdate M S) S = inReviewUpdate M S
    ∧ newRows "USDOTNumber" (inReviewUpdate M S) S = []
    ∧ removedUpdate (removedUpdate M S) S = removedUpdate M S
    ∧ (removedFold (removedUpdate M S) S).2 = 0 := by
  have h1 := newRows_after "USDOTNumber" M S
  have h2 := newRows_after "ProviderNumber" M S
  refine ⟨?_, ?_, ?_, ?_⟩
  · show inReviewUpdate (inReviewUpdate M S) S = inReviewUpdate M S
    unfold inReviewUpdate
    rw [h1, List.append_nil]
  · exact h1
  · rw [removedUpdate_eq M S, removedUpdate_eq (M ++ newRows "ProviderNumber" M S) S,
      h2, List.append_nil]
  · rw [removedUpdate_eq M S, removedFold_eq, h2]
    rfl

/-- C10: reconciliation never modifies an existing master row: the first
`master.length` entries of the updated store are exactly the loaded master
rows, in order; everything after them is exactly the list of admitted new
snapshot rows, which is a sublist of the snapshot (so new rows appear in
snapshot arrival order).  Holds for both scrapers. -/
theorem reconcile_preserves_existing (M S : List Row) :
    (inReviewUpdate M S).take M.length = M
    ∧ (inReviewUpdate M S).drop M.length = newRows "USDOTNumber" M S
    ∧ (newRows "USDOTNumber" M S).Sublist S
    ∧ (removedUpdate M S).take M.length = M
    ∧ (removedUpdate M S).drop M.length = newRows "ProviderNumber" M S
    ∧ (newRows "ProviderNumber" M S).Sublist S := by
  refine ⟨?_, ?_, ?_, ?_, ?_, ?_⟩
  · unfold inReviewUpdate
    simp
  · unfold inReviewUpdate
    simp
  · exact List.filter_sublist S
  · rw [removedUpdate_eq]
    simp
  · rw [removedUpdate_eq]
    simp
  · exact List.filter_sublist S

theorem fetchPageAux_succ (resp : Nat → Attempt) (attempt rem : Nat) :
    fetchPageAux resp attempt (rem + 1) =
      match resp attempt with
      | .success pg => .ok (pg, attempt)
      | _ => fetchPageAux resp (attempt + 1) rem := rfl

theorem fetchPageAux_not_success (resp : Nat → Attempt) (attempt rem : Nat)
    (h : (resp attempt).isSuccess = false) :
    fetchPageAux resp attempt (rem + 1) = fetchPageAux resp (attempt + 1) rem := by
  rw [fetchPageAux_succ]
  cases hr : resp attempt
  case success pg => rw [hr] at h; simp [Attempt.isSuccess] at h
  all_goals rfl

theorem fetchPageAux_success (resp : Nat → Attempt) (attempt rem : Nat) (pg : PageResponse)
    (h : resp attempt = .success pg) :
    fetchPageAux resp attempt (rem + 1) = .ok (pg, attempt) := by
  rw [fetchPageAux_succ, h]

theorem fetchPageAux_exhausted (resp : Nat → Attempt) :
    ∀ rem attempt,
      (∀ j, attempt ≤ j → j < attempt + rem → (resp j).isSuccess = false) →
      fetchPageAux resp attempt rem = .error "FetchExhausted" := by
  intro rem
  induction rem with
  | zero => intro attempt _; rfl
  | succ n ih =>
    intro attempt h
    rw [fetchPageAux_not_success resp attempt n (h attempt le_rfl (by omega))]
    exact ih (attempt + 1) (fun j h1 h2 => h j (by omega) (by omega))

/-- C4: retry bound.  A page endpoint answering HTTP 500 on every attempt
before `MAX_RETRIES` and succeeding on attempt `MAX_RETRIES` yields the
correct page data; an endpoint whose every attempt fails makes `fetch_page`
raise the fatal exhaustion error, the whole run raises, and no snapshot or
master artifact is written by that run (either scraper). -/
theorem retry_bound
    (resp : Nat → Attempt) (r : PageResponse)
    (respAll : Nat → Nat → Nat → Attempt) (mf : Option (List Row))
    (h500 : ∀ k, k < MAX_RETRIES → 1 ≤ k → resp k = Attempt.status500)
    (hok : resp MAX_RETRIES = Attempt.success r)
    (hfail : ∀ k, k ≤ MAX_RETRIES → (respAll 0 10 k).isSuccess = false) :
    fetchPage resp = Except.ok (r, MAX_RETRIES)
    ∧ fetchPage (respAll 0 10) = Except.error "FetchExhausted"
    ∧ mainInReview respAll mf = Except.error "FetchExhausted"
    ∧ mainRemoved respAll mf = Except.error "FetchExhausted"
    ∧ artifactsWritten (mainInReview respAll mf) = []
    ∧ artifactsWritten (mainRemoved respAll mf) = [] := by
  have e1 := h500 1 (by decide) (by decide)
  have e2 := h500 2 (by decide) (by decide)
  have e3 := h500 3 (by decide) (by decide)
  have e4 := h500 4 (by decide) (by decide)
  have part1 : fetchPage resp = Except.ok (r, MAX_RETRIES) := by
    show fetchPageAux resp 1 (4 + 1) = Except.ok (r, MAX_RETRIES)
    rw [fetchPageAux_not_success resp 1 4 (by rw [e1]; rfl)]
    show fetchPageAux resp 2 (3 + 1) = Except.ok (r, MAX_RETRIES)
    rw [fetchPageAux_not_success resp 2 3 (by rw [e2]; rfl)]
    show fetchPageAux resp 3 (2 + 1) = Except.ok (r, MAX_RETRIES)
    rw [fetchPageAux_not_success resp 3 2 (by rw [e3]; rfl)]
    show fetchPageAux resp 4 (1 + 1) = Except.ok (r, MAX_RETRIES)
    rw [fetchPageAux_not_success resp 4 1 (by rw [e4]; rfl)]
    exact fetchPageAux_success resp 5 0 r hok
  have part2 : fetchPage (respAll 0 10) = Except.error "FetchExhausted" := by
    unfold fetchPage
    exact fetchPageAux_exhausted (respAll 0 10) MAX_RETRIES 1
      (fun j hj1 hj2 => hfail j (by omega))
  have part3 : mainInReview respAll mf = Except.error "FetchExhausted" := by
    unfold mainInReview
    rw [part2]
  have part4 : mainRemoved respAll mf = Except.error "FetchExhausted" := by
    unfold mainRemoved
    rw [part2]
  refine ⟨part1, part2, part3, part4, ?_, ?_⟩
  · rw [part3]; rfl
  · rw [part4]; rfl

theorem retry_bound_witness :
    (∀ k, k < MAX_RETRIES → 1 ≤ k → resp500s k = Attempt.status500)
    ∧ resp500s MAX_RETRIES = Attempt.success ⟨1, [[("USDOTNumber", "1")]]⟩
    ∧ (∀ k, k ≤ MAX_RETRIES → (respNever 0 10 k).isSuccess = false)
    ∧ fetchPage resp500s = Except.ok (⟨1, [[("USDOTNumber", "1")]]⟩, MAX_RETRIES)
    ∧ artifactsWritten (mainInReview respNever none) = [] :=
  ⟨by decide, by decide, by decide,
    (retry_bound resp500s ⟨1, [[("USDOTNumber", "1")]]⟩ respNever none
      (by decide) (by decide) (by decide)).1,
    (retry_bound resp500s ⟨1, [[("USDOTNumber", "1")]]⟩ respNever none
      (by decide) (by decide) (by decide)).2.2.2.2.1⟩

/-- C5 counterexample: a request answered with a non-retryable HTTP 404 does
not surface immediately as a fatal error.  `raise_for_status` raises
`HTTPError`, which the `except requests.exceptions.RequestException` clause
catches, so the loop sleeps and retries: here the fetch succeeds on a second
attempt after the 404, where the claim requires an immediate fatal error
after the single attempt. -/
theorem http4xx_counterexample :
    fetchPage resp404then200 = Except.ok (⟨0, []⟩, 2) ∧ (2 : Nat) ≠ 1 := by
  constructor
  · show fetchPageAux resp404then200 1 (4 + 1) = _
    rw [fetchPageAux_not_success resp404then200 1 4 (by rfl)]
    exact fetchPageAux_success resp404then200 2 3 ⟨0, []⟩ (by rfl)
  · decide

/-- C5 amended: a non-retryable HTTP 4xx response is treated exactly like a
transient failure: it consumes a retry attempt and the loop continues (a
subsequent success returns that page), and when every attempt yields the 4xx
the fetcher raises the fetch-exhausted error rather than a distinct immediate
fatal error. -/
theorem http4xx_retried_amended
    (resp : Nat → Attempt) (c : Nat) (r : PageResponse)
    (respF : Nat → Attempt) (cF : Nat)
    (h1 : resp 1 = Attempt.httpError c)
    (h2 : resp 2 = Attempt.success r)
    (hF : ∀ k, k ≤ MAX_RETRIES → respF k = Attempt.httpError cF) :
    fetchPage resp = Except.ok (r, 2)
    ∧ fetchPage respF = Except.error "FetchExhausted" := by
  constructor
  · show fetchPageAux resp 1 (4 + 1) = _
    rw [fetchPageAux_not_success resp 1 4 (by rw [h1]; rfl)]
    exact fetchPageAux_success resp 2 3 r h2
  · unfold fetchPage
    exact fetchPageAux_exhausted respF MAX_RETRIES 1
      (fun j hj1 hj2 => by rw [hF j (by omega)]; rfl)

theorem http4xx_retried_amended_witness :
    resp404then200 1 = Attempt.httpError 404
    ∧ resp404then200 2 = Attempt.success ⟨0, []⟩
    ∧ (∀ k, k ≤ MAX_RETRIES → resp404always k = Attempt.httpError 404)
    ∧ fetchPage resp404then200 = Except.ok (⟨0, []⟩, 2)
    ∧ fetchPage resp404always = Except.error "FetchExhausted" :=
  ⟨by decide, by decide, by decide,
    (http4xx_retried_amended resp404then200 404 ⟨0, []⟩ resp404always 404
      (by decide) (by decide) (by decide)).1,
    (http4xx_retried_amended resp404then200 404 ⟨0, []⟩ resp404always 404
      (by decide) (by decide) (by decide)).2⟩

/-- C2 (code bug, failing input `recordsTotal = 50`): the first page is
requested with `length=10`, but the page loop resumes at offset
`PAGE_SIZE = 100`, so records at positions 10-99 are never requested.  With a
stable remote dataset of 50 records the run issues `ceil(50/100) = 1`
request, as the claim counts, but the snapshot it saves holds 10 records, not
50.  (The sibling variant `fmcs_scraper.py` fetches the first page with
`length=PAGE_SIZE`, confirming the probe length here is a slip.)  The `N = 0`
edge case does hold: no rows and no further requests. -/
theorem pagination_incomplete_bug :
    (List.replicate 50 [("USDOTNumber", "7")] : List Row).length = 50
    ∧ numPageRequests 50 = 1
    ∧ fetchedRows (List.replicate 50 [("USDOTNumber", "7")]) =
        List.replicate 10 [("USDOTNumber", "7")]
    ∧ snapshotRowCount
        (mainInReview (stableOracle (List.replicate 50 [("USDOTNumber", "7")])) none) = 10
    ∧ snapshotRowCount
        (mainRemoved (stableOracle (List.replicate 50 [("USDOTNumber", "7")])) none) = 10
    ∧ fetchedRows [] = []
    ∧ numPageRequests 0 = 1 := by
  refine ⟨by decide, by decide, by decide, ?_, ?_, by decide, by decide⟩ <;> decide

theorem save_csv_file_none_iff (rows : List Row) :
    (save_csv rows).file = none ↔ rows = [] := by
  cases rows with
  | nil => simp [save_csv]
  | cons r rs => simp [save_csv]

theorem mainInReview_ok_shape (resp : Nat → Nat → Nat → Attempt) (mf : Option (List Row))
    (o : RunOutcome) (h : mainInReview resp mf = Except.ok o) :
    ∃ rows : List Row, o = inReviewOutcome rows (mf.getD []) := by
  unfold mainInReview at h
  split at h
  · exact Except.noConfusion h
  · split at h
    · exact Except.noConfusion h
    · exact ⟨_, (Except.ok.inj h).symm⟩

theorem mainRemoved_ok_shape (resp : Nat → Nat → Nat → Attempt) (mf : Option (List Row))
    (o : RunOutcome) (h : mainRemoved resp mf = Except.ok o) :
    ∃ rows : List Row, o = removedOutcome rows (mf.getD []) := by
  unfold mainRemoved at h
  split at h
  · exact Except.noConfusion h
  · split at h
    · exact Except.noConfusion h
    · exact ⟨_, (Except.ok.inj h).symm⟩

/-- C6 counterexample: a removed-scraper run whose snapshot adds zero new
records still rewrites the master artifact — `save_to_csv(master_rows,
master_csv)` is called unconditionally after the merge loop.  Here the single
fetched record is already in the loaded master store, the run reports zero
additions, and the master artifact is written nevertheless. -/
theorem master_rewrite_counterexample :
    runAdded (mainRemoved (stableOracle [[("ProviderNumber", "7")]])
        (some [[("ProviderNumber", "7")]])) = 0
    ∧ runMasterFile (mainRemoved (stableOracle [[("ProviderNumber", "7")]])
        (some [[("ProviderNumber", "7")]])) ≠ none := by
  refine ⟨by decide, by decide⟩

/-- C6 amended: the in-review run writes the master artifact exactly when at
least one record was added, and prints the count exactly then (otherwise it
prints a no-additions notice without a count); the removed run always
rewrites the master artifact and always prints the count, even when zero
records were added. -/
theorem master_write_policy_amended (resp : Nat → Nat → Nat → Attempt)
    (mf : Option (List Row)) (o p : RunOutcome)
    (h : mainInReview resp mf = Except.ok o)
    (h2 : mainRemoved resp mf = Except.ok p) :
    (o.masterFile = none ↔ o.added = 0)
    ∧ o.reported = (if o.added = 0 then none else some o.added)
    ∧ p.masterFile ≠ none
    ∧ p.reported = some p.added := by
  obtain ⟨rows, rfl⟩ := mainInReview_ok_shape resp mf o h
  obtain ⟨rows2, rfl⟩ := mainRemoved_ok_shape resp mf p h2
  refine ⟨?_, ?_, ?_, ?_⟩
  · unfold inReviewOutcome
    by_cases hnr : (newRows "USDOTNumber" (mf.getD []) rows).isEmpty
    · simp only [hnr, if_pos]
      simp [List.isEmpty_iff.mp hnr]
    · simp only [hnr, Bool.false_eq_true, if_false]
      rw [save_csv_file_none_iff]
      constructor
      · intro hap
        exact absurd (List.append_eq_nil.mp hap).2
          (by simpa [List.isEmpty_iff] using hnr)
      · intro hlen
        exact absurd (List.length_eq_zero.mp hlen)
          (by simpa [List.isEmpty_iff] using hnr)
  · unfold inReviewOutcome
    by_cases hnr : (newRows "USDOTNumber" (mf.getD []) rows).isEmpty
    · simp [hnr, List.isEmpty_iff.mp hnr]
    · have : (newRows "USDOTNumber" (mf.getD []) rows).length ≠ 0 := by
        intro hlen
        exact absurd (List.length_eq_zero.mp hlen)
          (by simpa [List.isEmpty_iff] using hnr)
      simp [hnr, this]
  · unfold removedOutcome
    simp [save_to_csv]
  · rfl

theorem master_write_policy_amended_witness :
    mainInReview (stableOracle [[("ProviderNumber", "7")]])
        (some [[("ProviderNumber", "7")]]) = Except.ok irOutcome0
    ∧ mainRemoved (stableOracle [[("ProviderNumber", "7")]])
        (some [[("ProviderNumber", "7")]]) = Except.ok rmOutcome0
    ∧ ((irOutcome0.masterFile = none ↔ irOutcome0.added = 0)
      ∧ irOutcome0.reported =
          (if irOutcome0.added = 0 then none else some irOutcome0.added)
      ∧ rmOutcome0.masterFile ≠ none
      ∧ rmOutcome0.reported = some rmOutcome0.added) :=
  ⟨rfl, rfl,
    master_write_policy_amended (stableOracle [[("ProviderNumber", "7")]])
      (some [[("ProviderNumber", "7")]]) irOutcome0 rmOutcome0 rfl rfl⟩

/-- C8 counterexample: a run whose snapshot consists of the record
`{Name: "Acme", City: "", State: "TX"}` with no identity field completes
successfully and drops the record, but emits no warning at all — the merge
loops of both scrapers skip missing-key rows silently, with no per-record
warning message — where the claim (and the spec's example) requires a
warning count of 1. -/
theorem missing_key_warning_counterexample :
    runOk (mainInReview
        (stableOracle [[("Name", "Acme"), ("City", ""), ("State", "TX")]]) none) = true
    ∧ runWarnings (mainInReview
        (stableOracle [[("Name", "Acme"), ("City", ""), ("State", "TX")]]) none) = 0
    ∧ runMasterFile (mainInReview
        (stableOracle [[("Name", "Acme"), ("City", ""), ("State", "TX")]]) none) = none
    ∧ runOk (mainRemoved
        (stableOracle [[("Name", "Acme"), ("City", ""), ("State", "TX")]]) none) = true
    ∧ runWarnings (mainRemoved
        (stableOracle [[("Name", "Acme"), ("City", ""), ("State", "TX")]]) none) = 0
    ∧ (0 : Nat) ≠ 1 := by
  refine ⟨by decide, by decide, by decide, by decide, by decide, by decide⟩

/-- C8 amended: a snapshot record lacking the identity key is skipped
silently — no warning is emitted — and never enters the master store, and its
presence is never fatal: the run still completes.  The only warning either
run can emit is the in-review empty-snapshot warning, so a run that wrote a
snapshot has warning count zero, and a removed run never warns. -/
theorem missing_key_skipped_amended (M S : List Row) (r : Row)
    (resp : Nat → Nat → Nat → Attempt) (mf : Option (List Row))
    (o p : RunOutcome)
    (_hr : r ∈ S)
    (hk : rowGet r "USDOTNumber" = none)
    (hk2 : rowGet r "ProviderNumber" = none)
    (hm : r ∉ M)
    (h : mainInReview resp mf = Except.ok o)
    (hsnap : o.snapshotFile ≠ none)
    (h2 : mainRemoved resp mf = Except.ok p) :
    r ∉ inReviewUpdate M S
    ∧ r ∉ removedUpdate M S
    ∧ o.warnings = 0
    ∧ p.warnings = 0 := by
  refine ⟨?_, ?_, ?_, ?_⟩
  · intro hmem
    rcases (mem_update_iff "USDOTNumber" M S r).mp hmem with hM | ⟨_, v, hv, _⟩
    · exact hm hM
    · rw [hk] at hv
      exact Option.noConfusion hv
  · intro hmem
    rw [removedUpdate_eq] at hmem
    rcases (mem_update_iff "ProviderNumber" M S r).mp hmem with hM | ⟨_, v, hv, _⟩
    · exact hm hM
    · rw [hk2] at hv
      exact Option.noConfusion hv
  · obtain ⟨rows, rfl⟩ := mainInReview_ok_shape resp mf o h
    unfold inReviewOutcome at hsnap ⊢
    cases rows with
    | nil => exact absurd rfl hsnap
    | cons a as => rfl
  · obtain ⟨rows, rfl⟩ := mainRemoved_ok_shape resp mf p h2
    rfl

theorem missing_key_skipped_amended_witness :
    ([("Name", "Acme"), ("City", ""), ("State", "TX")] : Row)
        ∈ [[("Name", "Acme"), ("City", ""), ("State", "TX")]]
    ∧ rowGet [("Name", "Acme"), ("City", ""), ("State", "TX")] "USDOTNumber" = none
    ∧ ([("Name", "Acme"), ("City", ""), ("State", "TX")] : Row)
        ∉ inReviewUpdate [] [[("Name", "Acme"), ("City", ""), ("State", "TX")]] :=
  ⟨by decide, by decide,
    (missing_key_skipped_amended [] [[("Name", "Acme"), ("City", ""), ("State", "TX")]]
      [("Name", "Acme"), ("City", ""), ("State", "TX")]
      (stableOracle [[("Name", "Acme"), ("City", ""), ("State", "TX")]]) none
      { snapshotFile := some (["City", "Name", "State"],
          [[("Name", "Acme"), ("City", ""), ("State", "TX")]]),
        masterFile := none, added := 0, reported := none, warnings := 0 }
      { snapshotFile := some (["City", "Name", "State"],
          [[("Name", "Acme"), ("City", ""), ("State", "TX")]]),
        masterFile := some ([], []), added := 0, reported := some 0, warnings := 0 }
      (by decide) (by decide) (by decide) (by decide) rfl (by decide) rfl).1⟩

/-- C9 counterexample: saving an empty snapshot through the removed scraper's
`save_to_csv` is not a no-op: the function has no empty-input guard, so it
opens the artifact for writing and emits a header-only (here entirely empty)
CSV, and prints no warning — where the claim requires a warning and no file
creation or overwrite. -/
theorem empty_save_counterexample :
    save_to_csv [] = { file := some ([], []), warned := false }
    ∧ (save_to_csv []).file ≠ none
    ∧ (save_to_csv []).warned = false := by
  refine ⟨rfl, by decide, rfl⟩

/-- C9 amended: on an empty snapshot the in-review `save_csv` is a no-op that
reports a warning and writes nothing, but the removed `save_to_csv` writes
(creating or overwriting) an empty header-only artifact and reports no
warning. -/
theorem empty_save_amended (rows : List Row) (h : rows = []) :
    save_csv rows = { file := none, warned := true }
    ∧ save_to_csv rows = { file := some ([], []), warned := false } := by
  subst h
  exact ⟨rfl, rfl⟩

theorem empty_save_amended_witness :
    ([] : List Row) = []
    ∧ save_csv [] = { file := none, warned := true } :=
  ⟨rfl, (empty_save_amended [] rfl).1⟩

theorem mem_innerMergeTransfer (dfIn : List InRow) (dfRm : List RmRow) (q : String × String) :
    q ∈ innerMergeTransfer dfIn dfRm ↔
      ∃ i ∈ dfIn, ∃ r ∈ dfRm, i.providerNumber = r.providerNumber
        ∧ q = (r.providerNumber, transferMonthOf r.updatedOn) := by
  unfold innerMergeTransfer
  rw [List.mem_flatMap]
  constructor
  · rintro ⟨i, hi, hq⟩
    rw [List.mem_map] at hq
    rcases hq with ⟨r, hrf, rfl⟩
    rw [List.mem_filter] at hrf
    exact ⟨i, hi, r, hrf.1, (beq_iff_eq.mp hrf.2).symm, rfl⟩
  · rintro ⟨i, hi, r, hr, hpn, rfl⟩
    exact ⟨i, hi, List.mem_map.mpr
      ⟨r, List.mem_filter.mpr ⟨hr, beq_iff_eq.mpr hpn.symm⟩, rfl⟩⟩

theorem pairwise_key_unique {l : List RmRow}
    (h : List.Pairwise (fun a b => a.providerNumber ≠ b.providerNumber) l)
    {a b : RmRow} (ha : a ∈ l) (hb : b ∈ l)
    (hk : a.providerNumber = b.providerNumber) : a = b := by
  induction l with
  | nil => cases ha
  | cons x xs ih =>
    rcases List.pairwise_cons.mp h with ⟨hx, hxs⟩
    rcases List.mem_cons.mp ha with rfl | ha2
    · rcases List.mem_cons.mp hb with rfl | hb2
      · rfl
      · exact absurd hk (hx b hb2)
    · rcases List.mem_cons.mp hb with rfl | hb2
      · exact absurd hk.symm (hx a ha2)
      · exact ih hxs ha2 hb2

theorem matched_filter_mem (dfIn : List InRow) (dfRm : List RmRow) (r : RmRow)
    (hr : r ∈ dfRm) (i : InRow) (hi : i ∈ dfIn)
    (hpn : i.providerNumber = r.providerNumber) :
    (r.providerNumber, transferMonthOf r.updatedOn) ∈
      (innerMergeTransfer dfIn dfRm).filter (fun p => p.1 == r.providerNumber) := by
  refine List.mem_filter.mpr ⟨?_, ?_⟩
  · exact (mem_innerMergeTransfer dfIn dfRm _).mpr ⟨i, hi, r, hr, hpn, rfl⟩
  · exact beq_iff_eq.mpr rfl

theorem annotatedRemoved_sound (dfIn : List InRow) (dfRm : List RmRow)
    (hdist : List.Pairwise (fun a b => a.providerNumber ≠ b.providerNumber) dfRm)
    (r : RmRow) (v : Option String)
    (hmem : (r, v) ∈ annotatedRemoved dfIn dfRm) :
    r ∈ dfRm
    ∧ ((∃ i ∈ dfIn, i.providerNumber = r.providerNumber) →
        v = some (transferMonthOf r.updatedOn))
    ∧ ((¬∃ i ∈ dfIn, i.providerNumber = r.providerNumber) → v = none) := by
  unfold annotatedRemoved leftMergeTransfer at hmem
  rw [List.mem_flatMap] at hmem
  rcases hmem with ⟨r0, hr0, hin⟩
  simp only [] at hin
  split at hin
  case isTrue hempty =>
    rw [List.mem_singleton, Prod.mk.injEq] at hin
    obtain ⟨rfl, rfl⟩ := hin
    refine ⟨hr0, ?_, fun _ => rfl⟩
    rintro ⟨i, hi, hpn⟩
    exfalso
    have hf := matched_filter_mem dfIn dfRm r hr0 i hi hpn
    rw [List.isEmpty_iff.mp hempty] at hf
    exact List.not_mem_nil _ hf
  case isFalse hempty =>
    rw [List.mem_map] at hin
    rcases hin with ⟨p, hpf, hpv⟩
    rw [Prod.mk.injEq] at hpv
    obtain ⟨rfl, rfl⟩ := hpv
    rw [List.mem_filter] at hpf
    obtain ⟨hptr, hpk⟩ := hpf
    rcases (mem_innerMergeTransfer dfIn dfRm p).mp hptr with ⟨i2, hi2, r2, hr2, hpn2, rfl⟩
    have hk2 : r2.providerNumber = r0.providerNumber := beq_iff_eq.mp hpk
    have her : r2 = r0 := pairwise_key_unique hdist hr2 hr0 hk2
    subst her
    refine ⟨hr0, fun _ => rfl, ?_⟩
    intro hnm
    exact absurd ⟨i2, hi2, hpn2⟩ hnm

theorem annotatedRemoved_coverage (dfIn : List InRow) (dfRm : List RmRow)
    (r : RmRow) (hr : r ∈ dfRm) :
    ∃ v, (r, v) ∈ annotatedRemoved dfIn dfRm := by
  unfold annotatedRemoved leftMergeTransfer
  cases hms : (innerMergeTransfer dfIn dfRm).filter (fun p => p.1 == r.providerNumber) with
  | nil =>
    refine ⟨none, List.mem_flatMap.mpr ⟨r, hr, ?_⟩⟩
    simp only [hms, List.isEmpty_nil, if_true, List.mem_singleton]
  | cons q qs =>
    refine ⟨some q.2, List.mem_flatMap.mpr ⟨r, hr, ?_⟩⟩
    simp only [hms, List.isEmpty_cons, Bool.false_eq_true, if_false, List.mem_map]
    exact ⟨q, List.mem_cons_self q qs, rfl⟩

/-- C7 counterexample: a removed row matched in the in-review store whose
update timestamp does not parse gets the transfer month `"NaT"` — the string
rendering of a missing pandas period — not an empty transfer month as the
claim states.  (`pd.to_datetime(..., errors="coerce")` gives `NaT`,
`.dt.to_period("M").astype(str)` renders it as `"NaT"`.) -/
theorem transfer_month_counterexample :
    annotatedRemoved [⟨"1001"⟩] [⟨"1001", "notadate"⟩]
      = [(⟨"1001", "notadate"⟩, some "NaT")]
    ∧ ("NaT" : String) ≠ "" := by
  refine ⟨by decide, by decide⟩

/-- C7 amended: on master stores whose removed rows have pairwise-distinct
identity values (the reconciler's intended invariant), each annotated removed
row with an in-review match carries the transfer month derived from its own
update timestamp — the `"YYYY-MM"` truncation when the timestamp parses as a
calendar date, and the string `"NaT"` (not the empty string) when it is
absent or unparseable — and each removed row without a match carries a
missing (null) transfer month; every removed row appears in the output.  In
particular timestamp `"2024-03-15"` yields `"2024-03"`. -/
theorem transfer_month_amended (dfIn : List InRow) (dfRm : List RmRow)
    (hdist : List.Pairwise (fun a b => a.providerNumber ≠ b.providerNumber) dfRm) :
    (∀ r v, (r, v) ∈ annotatedRemoved dfIn dfRm →
      r ∈ dfRm
      ∧ ((∃ i ∈ dfIn, i.providerNumber = r.providerNumber) →
          v = some (transferMonthOf r.updatedOn))
      ∧ ((¬∃ i ∈ dfIn, i.providerNumber = r.providerNumber) → v = none))
    ∧ (∀ r ∈ dfRm, ∃ v, (r, v) ∈ annotatedRemoved dfIn dfRm)
    ∧ transferMonthOf "2024-03-15" = "2024-03"
    ∧ transferMonthOf "" = "NaT"
    ∧ transferMonthOf "notadate" = "NaT" := by
  refine ⟨fun r v hmem => annotatedRemoved_sound dfIn dfRm hdist r v hmem,
    fun r hr => annotatedRemoved_coverage dfIn dfRm r hr, by decide, by decide, by decide⟩

theorem transfer_month_amended_witness :
    List.Pairwise (fun a b => a.providerNumber ≠ b.providerNumber)
      [(⟨"1001", "2024-03-15"⟩ : RmRow), ⟨"2002", "2024-04-01"⟩]
    ∧ ((⟨"1001", "2024-03-15"⟩ : RmRow), some "2024-03") ∈
        annotatedRemoved [⟨"1001"⟩] [⟨"1001", "2024-03-15"⟩, ⟨"2002", "2024-04-01"⟩]
    ∧ ((⟨"2002", "2024-04-01"⟩ : RmRow), (none : Option String)) ∈
        annotatedRemoved [⟨"1001"⟩] [⟨"1001", "2024-03-15"⟩, ⟨"2002", "2024-04-01"⟩]
    ∧ transferMonthOf "2024-03-15" = "2024-03" :=
  ⟨by decide, by decide, by decide,
    (transfer_month_amended [⟨"1001"⟩] [⟨"1001", "2024-03-15"⟩, ⟨"2002", "2024-04-01"⟩]
      (by decide)).2.2.1⟩
